import Mathlib

/-!
Verification of the `newspaper` article pipeline (src/newspaper/article.py)
against its natural-language specification.

The embedding below translates `Article` and its methods from the Python 2
source. External collaborator modules that are imported by article.py but are
not part of src/ (the HTML parser, content extractor, document cleaner, output
formatter, video extractor, image scraper, NLP engine, the `urls` and
`text_utils` URL helpers, and the network fetcher) are exactly the components
the spec declares OUT OF SCOPE and specifies only at their interface boundary;
they are modelled as oracle function parameters bundled in `Collaborators`,
so every theorem quantifies over all conforming collaborator behaviours.

Python-to-Lean conventions used throughout:
- Python unicode strings are `String`; slicing `s[:n]` is `strTake s n`
  (both index by codepoints).
- Python truthiness `if s:` on a string is `s ≠ ""`; on a list it is `l ≠ []`.
- A method that mutates `self` and can raise becomes a function returning
  `Option ArticleException × Article`: the first component is the exception
  that propagates (`none` = normal return), the second is the state of the
  object after the call (Python mutates in place, so the state at the moment
  an exception propagates is observable to the caller).
-/

/-- A parsed HTML tree. The tree structure itself is opaque to article.py
(the spec keeps the parser external); a wrapper around the producing HTML
suffices for the pipeline logic. -/
structure Doc where
  content : String
deriving DecidableEq, Inhabited

/-- Modelled from the spec: `Configuration` (module configuration absent from
src/) is an immutable policy bundle of field length limits, minimum word and
sentence counts and a storage path, supplied once per article. -/
structure Configuration where
  MAX_TITLE : Nat
  MAX_TEXT : Nat
  MAX_KEYWORDS : Nat
  MAX_AUTHORS : Nat
  MAX_SUMMARY : Nat
  MIN_WORD_COUNT : Nat
  MIN_SENT_COUNT : Nat
  local_storage_path : String
deriving DecidableEq, Inhabited

/-- `ArticleException` from article.py; the spec names its construction-time
occurrence `ValidationError` and its stage-ordering occurrences
`PreconditionError`. `msg` is the message the source passes to the
constructor (the bare `ArticleException()` raises carry `""`). -/
structure ArticleException where
  msg : String
deriving DecidableEq, Inhabited

/-- A parse candidate from text_utils (module absent from src/): the spec
defines it as the resolved pair of a final URL and a stable link hash. -/
structure ParsingCandidate where
  url : String
  link_hash : String
deriving DecidableEq, Inhabited

/-- Modelled from the spec: `utils.fix_unicode` (module utils absent from
src/) is Unicode normalization, value-preserving at the level of abstraction
of this embedding (the spec treats it as a normalization that keeps strings
strings and never invents content). -/
def fix_unicode (s : String) : String := s

/-- Python slicing `s[:n]` on a unicode string: the first `n` codepoints. -/
def strTake (s : String) (n : Nat) : String := String.mk (s.data.take n)

/-- Bool-valued test that `pat` occurs as a contiguous run inside `l`. -/
def containsAux (pat : List Char) : List Char → Bool
  | [] => pat.isEmpty
  | c :: rest => pat.isPrefixOf (c :: rest) || containsAux pat rest

/-- Python substring containment `pat in hay`. -/
def strContains (hay pat : String) : Bool := containsAux pat.data hay.data

/-- Python str.split(sep) with a one-character separator (the only shape the
source uses: split(','), split(' '), split('.')): splits at every occurrence
and keeps empty pieces, so the result of splitting the empty string is a
one-element list holding the empty string. -/
def splitCharAux (c : Char) : List Char → List Char → List String
  | [], acc => [String.mk acc.reverse]
  | x :: xs, acc =>
    if x = c then String.mk acc.reverse :: splitCharAux c xs []
    else splitCharAux c xs (x :: acc)

/-- Python `s.split(c)` for a one-character separator `c`. -/
def pySplit (s : String) (c : Char) : List String := splitCharAux c s.data []

/-- Python str.strip(): drop whitespace from both ends. -/
def pyStrip (s : String) : String :=
  String.mk
    (((s.data.dropWhile Char.isWhitespace).reverse.dropWhile
        Char.isWhitespace).reverse)

/-- The `Article` record, fields in constructor order (article.py lines
44-118). `meta_keywords` is `u''` at construction and is reassigned to a
list of strings inside parse(); the list type is used throughout, with `[]`
as the empty default. `tags` is a Python set, modelled as a list (no claim
depends on set semantics). `additional_data` is a caller-owned dict,
modelled as an association list. -/
structure Article where
  configs : Configuration
  source_url : String
  url : String
  title : String
  top_img : String
  imgs : List String
  text : String
  keywords : List String
  authors : List String
  published_date : String
  summary : String
  html : String
  is_parsed : Bool
  is_downloaded : Bool
  meta_description : String
  meta_lang : String
  meta_favicon : String
  meta_keywords : List String
  canonical_link : String
  top_node : Option Doc
  tags : List String
  movies : List String
  final_url : String
  link_hash : String
  doc : Option Doc
  raw_doc : Option Doc
  additional_data : List (String × String)
deriving DecidableEq, Inhabited

/-- The external collaborator interface consumed by article.py, per spec §6.
Each field stands for one call the orchestrator makes into a module that is
outside src/. Functions taking the article receive its state at the moment
of the call, exactly as the Python `self` argument does. -/
structure Collaborators where
  /-- network.get_html: may fail with a fetch error. -/
  get_html : String → Nat → Except ArticleException String
  /-- self.parser.fromstring: html text to tree. -/
  fromstring : String → Doc
  /-- self.parser.get_meta_type, applied to raw_doc in is_valid_body. -/
  get_meta_type : Option Doc → String
  /-- RawHelper.get_parsing_candidate (url, html). -/
  raw_parsing_candidate : String → String → ParsingCandidate
  /-- URLHelper.get_parsing_candidate (url). -/
  url_parsing_candidate : String → ParsingCandidate
  get_title : Article → String
  get_authors : Article → List String
  get_meta_lang : Article → String
  get_favicon : Article → String
  get_meta_description : Article → String
  get_canonical_link : Article → String
  extract_tags : Article → List String
  get_meta_keywords : Article → String
  /-- StandardDocumentCleaner.clean: returns the cleaned tree. -/
  clean : Article → Doc
  calculate_best_node : Article → Option Doc
  /-- VideoExtractor(article).get_videos(): the movie list it stores. -/
  get_videos : Article → List String
  post_cleanup : Doc → Doc
  get_formatted_text : Article → String
  get_top_img_url : Article → String
  get_img_urls : Article → List String
  /-- images.Scraper(article).largest_image_url(); may raise (caught). -/
  largest_image_url : Article → Except ArticleException String
  /-- urls.get_scheme (module urls absent from src/). -/
  get_scheme : String → String
  /-- urls.get_domain (module urls absent from src/). -/
  get_domain : String → String
  /-- urls.prepare_url url source_url (module urls absent from src/). -/
  prepare_url : String → String → String
  /-- nlp.keywords(text).keys(). -/
  keywords : String → List String
  /-- nlp.summarize(title, text): ordered list of sentences. -/
  summarize : String → String → List String

/-- article.py lines 37-38: when the caller supplies no source_url it is
derived as `get_scheme(url) + '://' + get_domain(url)`. -/
def derive_source_url (C : Collaborators) (url : String)
    (source_url : Option String) : String :=
  match source_url with
  | some s => s
  | none => C.get_scheme url ++ "://" ++ C.get_domain url

/-- Article.__init__ (article.py lines 31-118). After the derivation step
source_url can no longer be Python None, so the guard on line 40 reduces to
the emptiness test. The Python default `configs=None` picks up
`Configuration()` from the configuration module (absent from src/); here the
configuration is always passed explicitly. -/
def mkArticle (C : Collaborators) (cfg : Configuration) (url : String)
    (title : String) (source_url : Option String) :
    Except ArticleException Article :=
  let su := derive_source_url C url source_url
  if su = "" then .error ⟨"input url bad format"⟩
  else
    .ok
      { configs := cfg
        source_url := fix_unicode su
        url := C.prepare_url (fix_unicode url) (fix_unicode su)
        title := fix_unicode title
        top_img := ""
        imgs := []
        text := ""
        keywords := []
        authors := []
        published_date := ""
        summary := ""
        html := ""
        is_parsed := false
        is_downloaded := false
        meta_description := ""
        meta_lang := ""
        meta_favicon := ""
        meta_keywords := []
        canonical_link := ""
        top_node := none
        tags := []
        movies := []
        final_url := ""
        link_hash := ""
        doc := none
        raw_doc := none
        additional_data := [] }

/-- Article.set_title (lines 333-340): truncate to MAX_TITLE, normalize,
assign only if the result is non-empty (Python `if title:`); expressed as an
assign-or-keep on the single field it touches. -/
def Article.set_title (a : Article) (title : String) : Article :=
  let t := fix_unicode (strTake title a.configs.MAX_TITLE)
  { a with title := if t = "" then a.title else t }

/-- Article.set_text (lines 342-349): truncate to MAX_TEXT - 5, normalize,
assign only if non-empty. -/
def Article.set_text (a : Article) (text : String) : Article :=
  let t := fix_unicode (strTake text (a.configs.MAX_TEXT - 5))
  { a with text := if t = "" then a.text else t }

/-- Article.set_keywords (lines 351-358): the isinstance list check is
enforced by the Lean type; a non-empty input stores the first MAX_KEYWORDS
entries, each normalized; an empty list is a no-op. -/
def Article.set_keywords (a : Article) (keywords : List String) : Article :=
  { a with
    keywords :=
      if keywords = [] then a.keywords
      else (keywords.take a.configs.MAX_KEYWORDS).map fix_unicode }

/-- Article.set_authors (lines 360-368): as set_keywords with MAX_AUTHORS. -/
def Article.set_authors (a : Article) (authors : List String) : Article :=
  { a with
    authors :=
      if authors = [] then a.authors
      else (authors.take a.configs.MAX_AUTHORS).map fix_unicode }

/-- Article.set_summary (lines 370-375): truncate to MAX_SUMMARY, normalize,
assign unconditionally — the source has no emptiness guard here. -/
def Article.set_summary (a : Article) (summary : String) : Article :=
  { a with summary := fix_unicode (strTake summary a.configs.MAX_SUMMARY) }

/-- Article.get_key (lines 130-137): raises before parse, else link_hash. -/
def Article.get_key (a : Article) : Except ArticleException String :=
  if a.is_parsed = false then
    .error ⟨"You must parse an article before asking for a link_hash"⟩
  else .ok a.link_hash

/-- Article.download (lines 139-145): fetches html then sets is_downloaded.
A fetch failure propagates (first component) and leaves the state as it was,
since the assignment on line 144 never completes. -/
def Article.download (a : Article) (C : Collaborators) (timeout : Nat) :
    Option ArticleException × Article :=
  match C.get_html a.url timeout with
  | .error e => (some e, a)
  | .ok h => (none, { a with html := h, is_downloaded := true })

/-- Article.get_parse_candidate (lines 287-295): raw path when html was
already supplied (Python truthiness on the string), url path otherwise. -/
def Article.get_parse_candidate (crawl_candidate : Article)
    (C : Collaborators) : ParsingCandidate :=
  if crawl_candidate.html ≠ "" then
    C.raw_parsing_candidate crawl_candidate.url crawl_candidate.html
  else C.url_parsing_candidate crawl_candidate.url

/-- Article.set_reddit_top_img (lines 320-331): keep an existing top_img;
otherwise take the scraper result, swallowing any scraper exception (the
source catches it and only logs). -/
def Article.set_reddit_top_img (a : Article) (C : Collaborators) : Article :=
  { a with
    top_img :=
      if a.top_img ≠ "" then a.top_img
      else
        match C.largest_image_url a with
        | .ok s => s
        | .error _ => a.top_img }

/-- Steps 1-6 of Article.parse (lines 157-182): tree parsing and clone,
parse-candidate resolution, metadata extraction in source order, and the
in-place cleaning of doc. The title and authors extracted on lines 166-167
are held locally in the source and assigned only later, so they are returned
alongside the intermediate article state. -/
structure PreparedParse where
  article : Article
  title : String
  authors : List String

/-- The article state just before best-node selection, i.e. after line 182
of article.py, together with the locally held title and authors. Each
extractor call receives the article exactly as mutated so far. -/
def Article.parse_prepared (a : Article) (C : Collaborators) :
    PreparedParse :=
  let a1 := { a with doc := some (C.fromstring a.html) }
  let a2 := { a1 with raw_doc := a1.doc }
  let pc := a2.get_parse_candidate C
  let a3 := { a2 with final_url := pc.url, link_hash := pc.link_hash }
  let title := C.get_title a3
  let authors := C.get_authors a3
  let a4 := { a3 with meta_lang := C.get_meta_lang a3 }
  let a5 := { a4 with meta_favicon := C.get_favicon a4 }
  let a6 := { a5 with meta_description := C.get_meta_description a5 }
  let a7 := { a6 with canonical_link := C.get_canonical_link a6 }
  let a8 := { a7 with tags := C.extract_tags a7 }
  let mk := C.get_meta_keywords a8
  let a9 := { a8 with meta_keywords := (pySplit mk ',').map pyStrip }
  let a10 := { a9 with doc := some (C.clean a9) }
  ⟨a10, title, authors⟩

/-- Lines 184-191 of Article.parse: best-node selection, assignment of
top_node, and the optional video/formatting branch; yields the formatted
text (empty when there is no best node) together with the article state
after the branch. -/
def Article.parse_media (C : Collaborators) (pp : PreparedParse) :
    String × Article :=
  let a10 := pp.article
  let top := C.calculate_best_node a10
  let a11 := { a10 with top_node := top }
  match top with
  | none => ("", a11)
  | some n =>
    let a12 := { a11 with movies := C.get_videos a11 }
    let a12b := { a12 with top_node := some (C.post_cleanup n) }
    (C.get_formatted_text a12b, a12b)

/-- Lines 201-207 of Article.parse: when raw_doc is present, resolve the
top image url and the image url list from it, normalizing each. -/
def Article.parse_imgs (C : Collaborators) (a17 : Article) : Article :=
  match a17.raw_doc with
  | none => a17
  | some _ =>
    let a18a := { a17 with top_img := fix_unicode (C.get_top_img_url a17) }
    { a18a with imgs := (C.get_img_urls a18a).map fix_unicode }

/-- Article.parse (lines 147-210). Raises (with Python print as a side
effect outside the state) when not downloaded, leaving the state untouched.
Otherwise: prepared steps, best-node selection with the optional
video/formatting branch, the four setter assignments, resource release (a
filesystem glob and delete with no effect on the article state, omitted),
image resolution from raw_doc, the reddit fallback, and finally
is_parsed := true. -/
def Article.parse (a : Article) (C : Collaborators) :
    Option ArticleException × Article :=
  if a.is_downloaded = false then (some ⟨""⟩, a)
  else
    let pp := a.parse_prepared C
    let sa := Article.parse_media C pp
    let a14 := sa.2.set_title pp.title
    let a15 := a14.set_authors pp.authors
    let a16 := a15.set_text sa.1
    let a17 := a16.set_keywords a16.meta_keywords
    let a18 := Article.parse_imgs C a17
    let a19 := a18.set_reddit_top_img C
    (none, { a19 with is_parsed := true })

/-- The fixed media-news marker substrings (lines 262-264). -/
def safe_urls : List String :=
  ["/video", "/slide", "/gallery", "/powerpoint", "/fashion",
   "/glamour", "/cloth"]

/-- Article.is_media_news (lines 258-268): the for-loop with early return
over the fixed marker list. -/
def Article.is_media_news (a : Article) : Bool :=
  safe_urls.any (fun s => strContains a.url s)

/-- Python 2 semantics of `wordcount > (self.configs.MIN_WORD_COUNT - 50)`
on line 231: `wordcount` is the list produced by str.split, not its length,
and CPython 2 orders values of distinct types by type, with numeric types
below every other type — so a list compares greater than any int, always. -/
def py2_list_gt_int (_wordcount : List String) (_n : Int) : Bool := true

/-- Article.is_valid_body (lines 219-256). The source title test also
accepts a Python None title, which the typed embedding cannot hold; every
reachable title is a string. The precondition message text in the source
spans a backslash line continuation. -/
def Article.is_valid_body (a : Article) (C : Collaborators) :
    Except ArticleException Bool :=
  if a.is_parsed = false then
    .error ⟨"must parse article before checking if body is valid!"⟩
  else
    let meta_type := C.get_meta_type a.raw_doc
    let wordcount := pySplit a.text ' '
    let sentcount := pySplit a.text '.'
    if meta_type = "article" ∧
        py2_list_gt_int wordcount ((a.configs.MIN_WORD_COUNT : Int) - 50)
          = true then
      .ok true
    else if a.is_media_news = false ∧ a.text = "" then .ok false
    else if (pySplit a.title ' ').length < 2 then .ok false
    else if wordcount.length < a.configs.MIN_WORD_COUNT then .ok false
    else if sentcount.length < a.configs.MIN_SENT_COUNT then .ok false
    else if a.html = "" then .ok false
    else .ok true

/-- Article.nlp (lines 270-285): precondition, keyword union from title and
text (Python list(set(..)) deduplicates; first-occurrence order is one of
its admissible orders), keyword setter, then summary join and setter. -/
def Article.nlp (a : Article) (C : Collaborators) :
    Option ArticleException × Article :=
  if a.is_downloaded = false ∨ a.is_parsed = false then (some ⟨""⟩, a)
  else
    let text_keyws := C.keywords a.text
    let title_keyws := C.keywords a.title
    let keyws := (title_keyws ++ text_keyws).eraseDups
    let a1 := a.set_keywords keyws
    let summary := String.intercalate "\r\n" (C.summarize a1.title a1.text)
    (none, a1.set_summary summary)

/-- A concrete conforming collaborator bundle used by witnesses and
counterexamples: a fixed fetched page, a parser wrapping the html, and
plain extraction results. Best-node selection finds nothing, as on a page
with no extractable body. -/
def collab0 : Collaborators :=
  { get_html := fun _ _ => .ok "<html><body>hello</body></html>"
    fromstring := fun h => ⟨h⟩
    get_meta_type := fun _ => "website"
    raw_parsing_candidate := fun u h => ⟨u, "rawhash-" ++ toString h.length⟩
    url_parsing_candidate := fun u => ⟨u, "urlhash"⟩
    get_title := fun _ => "A Proper Headline"
    get_authors := fun _ => ["Jane Doe"]
    get_meta_lang := fun _ => "en"
    get_favicon := fun _ => "http://example.com/favicon.ico"
    get_meta_description := fun _ => "a description"
    get_canonical_link := fun _ => "http://example.com/canonical"
    extract_tags := fun _ => ["news"]
    get_meta_keywords := fun _ => "alpha, beta"
    clean := fun a => match a.doc with | some d => d | none => ⟨""⟩
    calculate_best_node := fun _ => none
    get_videos := fun _ => []
    post_cleanup := fun d => d
    get_formatted_text := fun _ => "formatted body text"
    get_top_img_url := fun _ => "http://example.com/top.png"
    get_img_urls := fun _ => []
    largest_image_url := fun _ => .error ⟨"jpeg error with PIL"⟩
    get_scheme := fun _ => "http"
    get_domain := fun _ => "example.com"
    prepare_url := fun u _ => u
    keywords := fun _ => ["keyword"]
    summarize := fun _ _ => ["a summary sentence"] }

/-- A concrete configuration in the spirit of the policy bundle. -/
def cfg0 : Configuration :=
  { MAX_TITLE := 50
    MAX_TEXT := 1000
    MAX_KEYWORDS := 35
    MAX_AUTHORS := 10
    MAX_SUMMARY := 5000
    MIN_WORD_COUNT := 300
    MIN_SENT_COUNT := 7
    local_storage_path := "/tmp/newspaper" }

/-- Extract the article from a construction result (used only on results
known to be successful). -/
def orDefault (r : Except ArticleException Article) : Article :=
  match r with
  | .ok a => a
  | .error _ => default

/-- A freshly constructed article: not downloaded, not parsed. -/
def artFresh : Article :=
  orDefault (mkArticle collab0 cfg0 "http://example.com/world/one" "" none)

/-- The fresh article after download with the default 7 time-unit timeout. -/
def artDown : Article := (artFresh.download collab0 7).2

/-- The downloaded article after parse (no best node under collab0). -/
def artParsed : Article := (artDown.parse collab0).2

/-- An article carrying a previously stored non-empty summary, reached
through the public pipeline (construction, then the summary setter). -/
def artSum : Article := artFresh.set_summary "prior summary"

/-- An article with non-empty stored values in all four guarded fields. -/
def artFull : Article :=
  (((artFresh.set_title "Hello World Title").set_text
    "some body text").set_keywords ["kw"]).set_authors ["Jane Doe"]

/-- A configuration whose title cap is smaller than a caller-supplied
title: the constructor (article.py line 49) stores the title argument with
no truncation. -/
def cfgSmall : Configuration := { cfg0 with MAX_TITLE := 1 }

/-- An article whose stored title already exceeds MAX_TITLE, produced by
construction alone. -/
def artLong : Article :=
  orDefault (mkArticle collab0 cfgSmall "http://example.com/world/one"
    "ab" none)

/-- Scenario D configuration: MAX_AUTHORS = 2. -/
def cfgAuth2 : Configuration := { cfg0 with MAX_AUTHORS := 2 }

/-- A fresh article under the scenario D configuration. -/
def artAuth2 : Article :=
  orDefault (mkArticle collab0 cfgAuth2 "http://example.com/world/one"
    "" none)

/-- Collaborators identical to collab0 except that the parser classifies
the page's declared meta-type as "article". -/
def collabMetaArticle : Collaborators :=
  { collab0 with get_meta_type := fun _ => "article" }

/-- The pipeline under collabMetaArticle: constructed, downloaded. -/
def artMetaDown : Article :=
  ((orDefault (mkArticle collabMetaArticle cfg0
    "http://example.com/world/one" "" none)).download collabMetaArticle 7).2

/-- The same article after parse: no best node, so its text is empty. -/
def artMetaParsed : Article := (artMetaDown.parse collabMetaArticle).2

lemma isPrefixOf_append_self (l t : List Char) :
    l.isPrefixOf (l ++ t) = true := by
  induction l with
  | nil => cases t <;> rfl
  | cons c r ih => simp [List.isPrefixOf, ih]

lemma containsAux_append (pat pre post : List Char) :
    containsAux pat (pre ++ (pat ++ post)) = true := by
  induction pre with
  | nil =>
    simp only [List.nil_append]
    cases pat with
    | nil =>
      cases post with
      | nil => rfl
      | cons c r => simp [containsAux, List.isPrefixOf]
    | cons p pr =>
      rw [List.cons_append]
      simp only [containsAux]
      rw [← List.cons_append, isPrefixOf_append_self]
      simp
  | cons c r ih => simp [containsAux, ih]

/-- Claim C7: is_media_news() returns true exactly when the url contains at
least one of the seven fixed marker substrings; the result is a disjunction
of the individual substring tests, hence independent of the order in which
the loop tests them. -/
theorem is_media_news_iff_markers (a : Article) :
    a.is_media_news = true ↔
      (strContains a.url "/video" = true ∨
       strContains a.url "/slide" = true ∨
       strContains a.url "/gallery" = true ∨
       strContains a.url "/powerpoint" = true ∨
       strContains a.url "/fashion" = true ∨
       strContains a.url "/glamour" = true ∨
       strContains a.url "/cloth" = true) := by
  simp [Article.is_media_news, safe_urls, List.any_cons, List.any_nil,
    Bool.or_eq_true]

/-- Claim C3: whenever the source_url the constructor ends up with — the
caller-supplied one, or scheme + "://" + domain of the url when the caller
supplies none — is the empty string, construction fails with the
validation error instead of producing an instance. -/
theorem mkArticle_empty_source_url_error (C : Collaborators)
    (cfg : Configuration) (url title : String) (source_url : Option String)
    (h : derive_source_url C url source_url = "") :
    mkArticle C cfg url title source_url =
      .error ⟨"input url bad format"⟩ := by
  simp [mkArticle, h]

/-- Witness for C3 at a concrete input: an explicitly supplied empty
source_url is rejected. -/
theorem mkArticle_empty_source_url_error_witness :
    mkArticle collab0 cfg0 "http://example.com/a" "" (some "") =
      .error ⟨"input url bad format"⟩ :=
  mkArticle_empty_source_url_error collab0 cfg0 "http://example.com/a" ""
    (some "") rfl

/-- Claim C8: on the derivation path (caller supplies no source_url) the
derived source_url always contains "://" and is never empty, whatever
strings the scheme and domain helpers return — so the empty-source_url
error branch is unreachable there and construction always succeeds. -/
theorem derived_source_url_never_empty (C : Collaborators)
    (cfg : Configuration) (url title : String) :
    strContains (derive_source_url C url none) "://" = true ∧
    derive_source_url C url none ≠ "" ∧
    ∃ a, mkArticle C cfg url title none = .ok a := by
  have hform : derive_source_url C url none =
      C.get_scheme url ++ "://" ++ C.get_domain url := rfl
  have hContains : strContains (derive_source_url C url none) "://" = true := by
    rw [hform]
    show containsAux ("://".data)
      ((C.get_scheme url ++ "://" ++ C.get_domain url).data) = true
    have hdata : (C.get_scheme url ++ "://" ++ C.get_domain url).data =
        (C.get_scheme url).data ++ ("://".data ++ (C.get_domain url).data) := by
      simp [List.append_assoc]
    rw [hdata]
    exact containsAux_append _ _ _
  have hne : derive_source_url C url none ≠ "" := by
    intro hc
    have hlen := congrArg String.length hc
    rw [hform] at hlen
    rw [String.length_append, String.length_append] at hlen
    have h3 : ("://" : String).length = 3 := rfl
    have h0 : ("" : String).length = 0 := rfl
    omega
  refine ⟨hContains, hne, ?_⟩
  exact ⟨_, by simp only [mkArticle]; rw [if_neg hne]⟩

/-- Claim C10: download touches only html and is_downloaded; every other
field of the article is unchanged, on the success path and equally when the
fetch fails (where nothing at all changes). -/
theorem download_frame (C : Collaborators) (a : Article) (t : Nat) :
    (a.download C t).2.configs = a.configs ∧
    (a.download C t).2.source_url = a.source_url ∧
    (a.download C t).2.url = a.url ∧
    (a.download C t).2.title = a.title ∧
    (a.download C t).2.top_img = a.top_img ∧
    (a.download C t).2.imgs = a.imgs ∧
    (a.download C t).2.text = a.text ∧
    (a.download C t).2.keywords = a.keywords ∧
    (a.download C t).2.authors = a.authors ∧
    (a.download C t).2.published_date = a.published_date ∧
    (a.download C t).2.summary = a.summary ∧
    (a.download C t).2.is_parsed = a.is_parsed ∧
    (a.download C t).2.meta_description = a.meta_description ∧
    (a.download C t).2.meta_lang = a.meta_lang ∧
    (a.download C t).2.meta_favicon = a.meta_favicon ∧
    (a.download C t).2.meta_keywords = a.meta_keywords ∧
    (a.download C t).2.canonical_link = a.canonical_link ∧
    (a.download C t).2.top_node = a.top_node ∧
    (a.download C t).2.tags = a.tags ∧
    (a.download C t).2.movies = a.movies ∧
    (a.download C t).2.final_url = a.final_url ∧
    (a.download C t).2.link_hash = a.link_hash ∧
    (a.download C t).2.doc = a.doc ∧
    (a.download C t).2.raw_doc = a.raw_doc ∧
    (a.download C t).2.additional_data = a.additional_data := by
  unfold Article.download
  cases hg : C.get_html a.url t <;> simp

/-- Claim C9: parse() called on an article that has not been downloaded
raises immediately: the exception is the bare precondition failure and the
article state it leaves behind is exactly the input state, every field —
is_parsed, doc, raw_doc, link_hash, final_url, text, title included —
untouched. -/
theorem parse_precondition_frame (C : Collaborators) (a : Article)
    (h : a.is_downloaded = false) :
    a.parse C = (some ⟨""⟩, a) ∧
    (a.parse C).2.is_parsed = a.is_parsed ∧
    (a.parse C).2.doc = a.doc ∧
    (a.parse C).2.raw_doc = a.raw_doc ∧
    (a.parse C).2.link_hash = a.link_hash ∧
    (a.parse C).2.final_url = a.final_url ∧
    (a.parse C).2.text = a.text ∧
    (a.parse C).2.title = a.title := by
  have hp : a.parse C = (some ⟨""⟩, a) := by simp [Article.parse, h]
  exact ⟨hp, by rw [hp], by rw [hp], by rw [hp], by rw [hp], by rw [hp],
    by rw [hp], by rw [hp]⟩

/-- Witness for C9 at a concrete input: a freshly constructed article. -/
theorem parse_precondition_frame_witness :
    artFresh.parse collab0 = (some ⟨""⟩, artFresh) ∧
    (artFresh.parse collab0).2.text = artFresh.text :=
  ⟨(parse_precondition_frame collab0 artFresh (by decide)).1,
   (parse_precondition_frame collab0 artFresh (by decide)).2.2.2.2.2.2.1⟩

/-- Claim C4: parse() before download raises the precondition exception;
nlp() raises it while either is_downloaded or is_parsed is false; get_key()
raises it while not parsed; and after any successful parse() the article is
parsed and get_key() returns its link_hash. -/
theorem stage_preconditions (C : Collaborators) (a : Article) :
    (a.is_downloaded = false → (a.parse C).1 = some ⟨""⟩) ∧
    ((a.is_downloaded = false ∨ a.is_parsed = false) →
      (a.nlp C).1 = some ⟨""⟩) ∧
    (a.is_parsed = false →
      a.get_key = .error
        ⟨"You must parse an article before asking for a link_hash"⟩) ∧
    ((a.parse C).1 = none →
      (a.parse C).2.get_key = .ok (a.parse C).2.link_hash) := by
  refine ⟨?_, ?_, ?_, ?_⟩
  · intro h; simp [Article.parse, h]
  · intro h; unfold Article.nlp; rw [if_pos h]
  · intro h; simp [Article.get_key, h]
  · intro h
    by_cases hd : a.is_downloaded = false
    · have hcontra : (a.parse C).1 = some ⟨""⟩ := by simp [Article.parse, hd]
      rw [h] at hcontra
      exact absurd hcontra (by simp)
    · have hd' : a.is_downloaded = true := by
        revert hd; cases a.is_downloaded <;> simp
      have hp : (a.parse C).2.is_parsed = true := by
        simp [Article.parse, hd']
      simp [Article.get_key, hp]

/-- Witness for C4 at concrete inputs: the fresh article for the three
precondition clauses, the downloaded article for the post-parse clause. -/
theorem stage_preconditions_witness :
    (artFresh.parse collab0).1 = some ⟨""⟩ ∧
    (artFresh.nlp collab0).1 = some ⟨""⟩ ∧
    artFresh.get_key =
      .error ⟨"You must parse an article before asking for a link_hash"⟩ ∧
    (artDown.parse collab0).2.get_key =
      .ok (artDown.parse collab0).2.link_hash :=
  ⟨(stage_preconditions collab0 artFresh).1 (by decide),
   (stage_preconditions collab0 artFresh).2.1 (Or.inl (by decide)),
   (stage_preconditions collab0 artFresh).2.2.1 (by decide),
   (stage_preconditions collab0 artDown).2.2.2 (by decide)⟩

lemma strTake_empty (n : Nat) : strTake "" n = "" := by
  cases n <;> rfl

lemma strTake_length_le (s : String) (n : Nat) :
    (strTake s n).length ≤ n := by
  show (s.data.take n).length ≤ n
  simp [List.length_take]

/-- Counterexample to claim C1 as stated: set_summary has no emptiness
guard (article.py lines 370-375), so setting the summary to an input whose
normalized result is empty overwrites — and loses — the previously stored
non-empty value instead of leaving it unchanged. -/
theorem set_summary_empty_overwrites :
    artSum.summary = "prior summary" ∧
    (artSum.set_summary "").summary = "" ∧
    (artSum.set_summary "").summary ≠ artSum.summary :=
  ⟨by decide, by decide, by decide⟩

/-- Claim C1 (amended): for title, text, keywords and authors, calling the
corresponding setter with an input whose normalized result is empty leaves
the article — in particular any previously stored non-empty value —
entirely unchanged. set_summary is the exception the source carves out: it
overwrites unconditionally. -/
theorem setters_empty_input_preserve (a : Article) (t tx : String) :
    (fix_unicode (strTake t a.configs.MAX_TITLE) = "" → a.set_title t = a) ∧
    (fix_unicode (strTake tx (a.configs.MAX_TEXT - 5)) = "" →
      a.set_text tx = a) ∧
    a.set_keywords [] = a ∧
    a.set_authors [] = a := by
  refine ⟨?_, ?_, ?_, ?_⟩
  · intro h; simp [Article.set_title, h]
  · intro h; simp [Article.set_text, h]
  · simp [Article.set_keywords]
  · simp [Article.set_authors]

/-- Witness for C1 (amended) at a concrete input: empty inputs leave the
populated article untouched. -/
theorem setters_empty_input_preserve_witness :
    artFull.set_title "" = artFull ∧ artFull.set_text "" = artFull ∧
    artFull.set_keywords [] = artFull ∧ artFull.set_authors [] = artFull :=
  ⟨(setters_empty_input_preserve artFull "" "").1 (by decide),
   (setters_empty_input_preserve artFull "" "").2.1 (by decide),
   (setters_empty_input_preserve artFull "" "").2.2.1,
   (setters_empty_input_preserve artFull "" "").2.2.2⟩

/-- Counterexample to claim C5 as stated: after a setter call (set_title
with an input that normalizes to empty) the stored title still exceeds
MAX_TITLE, because the constructor stored it uncapped and the setter keeps
the prior value. -/
theorem capped_fields_counterexample :
    (artLong.set_title "").title = "ab" ∧
    (artLong.set_title "").configs.MAX_TITLE <
      (artLong.set_title "").title.length :=
  ⟨by decide, by decide⟩

/-- Claim C5 (amended): whenever a setter stores a new value, that value
obeys its configured bound — title at most MAX_TITLE, text at most
MAX_TEXT (indeed MAX_TEXT - 5), summary at most MAX_SUMMARY always, and a
non-empty keywords/authors input stores exactly the first
MAX_KEYWORDS/MAX_AUTHORS entries of the input in input order. When the
normalized input is empty the prior value is kept, and a prior value that
bypassed the setters (the constructor stores the title argument uncapped)
may exceed its bound. -/
theorem setters_cap_stored_values (a : Article) (t tx sm : String)
    (ks as_ : List String) :
    (fix_unicode (strTake t a.configs.MAX_TITLE) ≠ "" →
      (a.set_title t).title.length ≤ a.configs.MAX_TITLE) ∧
    (fix_unicode (strTake tx (a.configs.MAX_TEXT - 5)) ≠ "" →
      (a.set_text tx).text.length ≤ a.configs.MAX_TEXT) ∧
    (a.set_summary sm).summary.length ≤ a.configs.MAX_SUMMARY ∧
    (ks ≠ [] →
      (a.set_keywords ks).keywords =
        (ks.take a.configs.MAX_KEYWORDS).map fix_unicode ∧
      (a.set_keywords ks).keywords.length ≤ a.configs.MAX_KEYWORDS) ∧
    (as_ ≠ [] →
      (a.set_authors as_).authors =
        (as_.take a.configs.MAX_AUTHORS).map fix_unicode ∧
      (a.set_authors as_).authors.length ≤ a.configs.MAX_AUTHORS) := by
  refine ⟨?_, ?_, ?_, ?_, ?_⟩
  · intro h
    simp only [Article.set_title, if_neg h]
    exact strTake_length_le _ _
  · intro h
    simp only [Article.set_text, if_neg h]
    exact le_trans (strTake_length_le _ _) (Nat.sub_le _ _)
  · exact strTake_length_le _ _
  · intro h
    refine ⟨by simp [Article.set_keywords, h], ?_⟩
    simp [Article.set_keywords, h, List.length_take]
  · intro h
    refine ⟨by simp [Article.set_authors, h], ?_⟩
    simp [Article.set_authors, h, List.length_take]

/-- Witness for C5 (amended) at concrete inputs, including scenario D:
a three-entry author list under MAX_AUTHORS = 2 stores exactly the first
two entries in input order. -/
theorem setters_cap_stored_values_witness :
    (artAuth2.set_authors ["Jane Doe", "John Smith", "Extra One"]).authors =
      ["Jane Doe", "John Smith"] ∧
    (artAuth2.set_title "Hi").title.length ≤ artAuth2.configs.MAX_TITLE ∧
    (artAuth2.set_summary "a short summary").summary.length ≤
      artAuth2.configs.MAX_SUMMARY := by
  have h := setters_cap_stored_values artAuth2 "Hi" "" "a short summary" []
    ["Jane Doe", "John Smith", "Extra One"]
  refine ⟨?_, h.1 (by decide), h.2.2.1⟩
  rw [(h.2.2.2.2 (by decide)).1]
  decide

/-- Counterexample to claim C2 as stated: a parsed article with empty text
and a URL containing no media-news marker for which is_valid_body() returns
true, because its meta-type is "article" and the word-count guard on line
231 compares the split word list itself — not its length — against
MIN_WORD_COUNT - 50, which under Python 2 cross-type ordering is true for
every list. -/
theorem is_valid_body_counterexample :
    artMetaParsed.is_parsed = true ∧
    artMetaParsed.text = "" ∧
    (∀ s ∈ safe_urls, strContains artMetaParsed.url s = false) ∧
    artMetaParsed.is_valid_body collabMetaArticle = .ok true :=
  ⟨by decide, by decide, by decide, by rfl⟩

/-- Claim C2 (amended): for every parsed article whose text is empty, whose
url contains none of the fixed media-news marker substrings, and whose
declared meta-type is not "article", is_valid_body() returns false. (When
the meta-type is "article" the code returns true regardless of the empty
text, since the line-231 list-to-int comparison always succeeds in
Python 2.) -/
theorem is_valid_body_empty_text_invalid (C : Collaborators) (a : Article)
    (hp : a.is_parsed = true) (ht : a.text = "")
    (hm : ∀ s ∈ safe_urls, strContains a.url s = false)
    (hmt : C.get_meta_type a.raw_doc ≠ "article") :
    a.is_valid_body C = .ok false := by
  have h1 := hm "/video" (by simp [safe_urls])
  have h2 := hm "/slide" (by simp [safe_urls])
  have h3 := hm "/gallery" (by simp [safe_urls])
  have h4 := hm "/powerpoint" (by simp [safe_urls])
  have h5 := hm "/fashion" (by simp [safe_urls])
  have h6 := hm "/glamour" (by simp [safe_urls])
  have h7 := hm "/cloth" (by simp [safe_urls])
  have hmedia : a.is_media_news = false := by
    simp [Article.is_media_news, safe_urls, h1, h2, h3, h4, h5, h6, h7]
  simp only [Article.is_valid_body]
  rw [if_neg (by simp [hp] : ¬(a.is_parsed = false))]
  rw [if_neg (show ¬(C.get_meta_type a.raw_doc = "article" ∧
    py2_list_gt_int (pySplit a.text ' ')
      ((a.configs.MIN_WORD_COUNT : Int) - 50) = true) from
    fun hc => hmt hc.1)]
  rw [if_pos (show a.is_media_news = false ∧ a.text = "" from ⟨hmedia, ht⟩)]

/-- Witness for C2 (amended) at a concrete input: the parsed article under
collab0, whose meta-type is "website". -/
theorem is_valid_body_empty_text_invalid_witness :
    artParsed.is_valid_body collab0 = .ok false :=
  is_valid_body_empty_text_invalid collab0 artParsed (by decide) (by decide)
    (by decide) (by decide)

/-- The video/formatting branch when best-node selection finds nothing:
no videos, no formatted text, only top_node is (re)assigned to none. -/
lemma parse_media_none (C : Collaborators) (pp : PreparedParse)
    (hn : C.calculate_best_node pp.article = none) :
    Article.parse_media C pp = ("", { pp.article with top_node := none }) := by
  simp only [Article.parse_media, hn]

lemma set_text_of_empty (a : Article) : a.set_text "" = a := by
  simp [Article.set_text, strTake_empty, fix_unicode]

@[simp] lemma set_title_text (a : Article) (t : String) :
    (a.set_title t).text = a.text := by
  simp [Article.set_title]

@[simp] lemma set_title_is_parsed (a : Article) (t : String) :
    (a.set_title t).is_parsed = a.is_parsed := by
  simp [Article.set_title]

@[simp] lemma set_title_movies (a : Article) (t : String) :
    (a.set_title t).movies = a.movies := by
  simp [Article.set_title]

@[simp] lemma set_title_top_node (a : Article) (t : String) :
    (a.set_title t).top_node = a.top_node := by
  simp [Article.set_title]

@[simp] lemma set_title_meta_lang (a : Article) (t : String) :
    (a.set_title t).meta_lang = a.meta_lang := by
  simp [Article.set_title]

@[simp] lemma set_title_meta_description (a : Article) (t : String) :
    (a.set_title t).meta_description = a.meta_description := by
  simp [Article.set_title]

@[simp] lemma set_title_meta_favicon (a : Article) (t : String) :
    (a.set_title t).meta_favicon = a.meta_favicon := by
  simp [Article.set_title]

@[simp] lemma set_title_canonical_link (a : Article) (t : String) :
    (a.set_title t).canonical_link = a.canonical_link := by
  simp [Article.set_title]

@[simp] lemma set_title_tags (a : Article) (t : String) :
    (a.set_title t).tags = a.tags := by
  simp [Article.set_title]

@[simp] lemma set_title_meta_keywords (a : Article) (t : String) :
    (a.set_title t).meta_keywords = a.meta_keywords := by
  simp [Article.set_title]

@[simp] lemma set_title_link_hash (a : Article) (t : String) :
    (a.set_title t).link_hash = a.link_hash := by
  simp [Article.set_title]

@[simp] lemma set_title_final_url (a : Article) (t : String) :
    (a.set_title t).final_url = a.final_url := by
  simp [Article.set_title]

@[simp] lemma set_authors_text (a : Article) (l : List String) :
    (a.set_authors l).text = a.text := by
  simp [Article.set_authors]

@[simp] lemma set_authors_is_parsed (a : Article) (l : List String) :
    (a.set_authors l).is_parsed = a.is_parsed := by
  simp [Article.set_authors]

@[simp] lemma set_authors_movies (a : Article) (l : List String) :
    (a.set_authors l).movies = a.movies := by
  simp [Article.set_authors]

@[simp] lemma set_authors_top_node (a : Article) (l : List String) :
    (a.set_authors l).top_node = a.top_node := by
  simp [Article.set_authors]

@[simp] lemma set_authors_meta_lang (a : Article) (l : List String) :
    (a.set_authors l).meta_lang = a.meta_lang := by
  simp [Article.set_authors]

@[simp] lemma set_authors_meta_description (a : Article) (l : List String) :
    (a.set_authors l).meta_description = a.meta_description := by
  simp [Article.set_authors]

@[simp] lemma set_authors_meta_favicon (a : Article) (l : List String) :
    (a.set_authors l).meta_favicon = a.meta_favicon := by
  simp [Article.set_authors]

@[simp] lemma set_authors_canonical_link (a : Article) (l : List String) :
    (a.set_authors l).canonical_link = a.canonical_link := by
  simp [Article.set_authors]

@[simp] lemma set_authors_tags (a : Article) (l : List String) :
    (a.set_authors l).tags = a.tags := by
  simp [Article.set_authors]

@[simp] lemma set_authors_meta_keywords (a : Article) (l : List String) :
    (a.set_authors l).meta_keywords = a.meta_keywords := by
  simp [Article.set_authors]

@[simp] lemma set_authors_link_hash (a : Article) (l : List String) :
    (a.set_authors l).link_hash = a.link_hash := by
  simp [Article.set_authors]

@[simp] lemma set_authors_final_url (a : Article) (l : List String) :
    (a.set_authors l).final_url = a.final_url := by
  simp [Article.set_authors]

@[simp] lemma set_text_is_parsed (a : Article) (t : String) :
    (a.set_text t).is_parsed = a.is_parsed := by
  simp [Article.set_text]

@[simp] lemma set_text_movies (a : Article) (t : String) :
    (a.set_text t).movies = a.movies := by
  simp [Article.set_text]

@[simp] lemma set_text_top_node (a : Article) (t : String) :
    (a.set_text t).top_node = a.top_node := by
  simp [Article.set_text]

@[simp] lemma set_text_meta_lang (a : Article) (t : String) :
    (a.set_text t).meta_lang = a.meta_lang := by
  simp [Article.set_text]

@[simp] lemma set_text_meta_description (a : Article) (t : String) :
    (a.set_text t).meta_description = a.meta_description := by
  simp [Article.set_text]

@[simp] lemma set_text_meta_favicon (a : Article) (t : String) :
    (a.set_text t).meta_favicon = a.meta_favicon := by
  simp [Article.set_text]

@[simp] lemma set_text_canonical_link (a : Article) (t : String) :
    (a.set_text t).canonical_link = a.canonical_link := by
  simp [Article.set_text]

@[simp] lemma set_text_tags (a : Article) (t : String) :
    (a.set_text t).tags = a.tags := by
  simp [Article.set_text]

@[simp] lemma set_text_meta_keywords (a : Article) (t : String) :
    (a.set_text t).meta_keywords = a.meta_keywords := by
  simp [Article.set_text]

@[simp] lemma set_text_link_hash (a : Article) (t : String) :
    (a.set_text t).link_hash = a.link_hash := by
  simp [Article.set_text]

@[simp] lemma set_text_final_url (a : Article) (t : String) :
    (a.set_text t).final_url = a.final_url := by
  simp [Article.set_text]

@[simp] lemma set_keywords_text (a : Article) (l : List String) :
    (a.set_keywords l).text = a.text := by
  simp [Article.set_keywords]

@[simp] lemma set_keywords_is_parsed (a : Article) (l : List String) :
    (a.set_keywords l).is_parsed = a.is_parsed := by
  simp [Article.set_keywords]

@[simp] lemma set_keywords_movies (a : Article) (l : List String) :
    (a.set_keywords l).movies = a.movies := by
  simp [Article.set_keywords]

@[simp] lemma set_keywords_top_node (a : Article) (l : List String) :
    (a.set_keywords l).top_node = a.top_node := by
  simp [Article.set_keywords]

@[simp] lemma set_keywords_meta_lang (a : Article) (l : List String) :
    (a.set_keywords l).meta_lang = a.meta_lang := by
  simp [Article.set_keywords]

@[simp] lemma set_keywords_meta_description (a : Article) (l : List String) :
    (a.set_keywords l).meta_description = a.meta_description := by
  simp [Article.set_keywords]

@[simp] lemma set_keywords_meta_favicon (a : Article) (l : List String) :
    (a.set_keywords l).meta_favicon = a.meta_favicon := by
  simp [Article.set_keywords]

@[simp] lemma set_keywords_canonical_link (a : Article) (l : List String) :
    (a.set_keywords l).canonical_link = a.canonical_link := by
  simp [Article.set_keywords]

@[simp] lemma set_keywords_tags (a : Article) (l : List String) :
    (a.set_keywords l).tags = a.tags := by
  simp [Article.set_keywords]

@[simp] lemma set_keywords_meta_keywords (a : Article) (l : List String) :
    (a.set_keywords l).meta_keywords = a.meta_keywords := by
  simp [Article.set_keywords]

@[simp] lemma set_keywords_link_hash (a : Article) (l : List String) :
    (a.set_keywords l).link_hash = a.link_hash := by
  simp [Article.set_keywords]

@[simp] lemma set_keywords_final_url (a : Article) (l : List String) :
    (a.set_keywords l).final_url = a.final_url := by
  simp [Article.set_keywords]

@[simp] lemma set_reddit_top_img_text (a : Article) (C : Collaborators) :
    (a.set_reddit_top_img C).text = a.text := by
  simp [Article.set_reddit_top_img]

@[simp] lemma set_reddit_top_img_is_parsed (a : Article) (C : Collaborators) :
    (a.set_reddit_top_img C).is_parsed = a.is_parsed := by
  simp [Article.set_reddit_top_img]

@[simp] lemma set_reddit_top_img_movies (a : Article) (C : Collaborators) :
    (a.set_reddit_top_img C).movies = a.movies := by
  simp [Article.set_reddit_top_img]

@[simp] lemma set_reddit_top_img_top_node (a : Article) (C : Collaborators) :
    (a.set_reddit_top_img C).top_node = a.top_node := by
  simp [Article.set_reddit_top_img]

@[simp] lemma set_reddit_top_img_meta_lang (a : Article) (C : Collaborators) :
    (a.set_reddit_top_img C).meta_lang = a.meta_lang := by
  simp [Article.set_reddit_top_img]

@[simp] lemma set_reddit_top_img_meta_description (a : Article) (C : Collaborators) :
    (a.set_reddit_top_img C).meta_description = a.meta_description := by
  simp [Article.set_reddit_top_img]

@[simp] lemma set_reddit_top_img_meta_favicon (a : Article) (C : Collaborators) :
    (a.set_reddit_top_img C).meta_favicon = a.meta_favicon := by
  simp [Article.set_reddit_top_img]

@[simp] lemma set_reddit_top_img_canonical_link (a : Article) (C : Collaborators) :
    (a.set_reddit_top_img C).canonical_link = a.canonical_link := by
  simp [Article.set_reddit_top_img]

@[simp] lemma set_reddit_top_img_tags (a : Article) (C : Collaborators) :
    (a.set_reddit_top_img C).tags = a.tags := by
  simp [Article.set_reddit_top_img]

@[simp] lemma set_reddit_top_img_meta_keywords (a : Article) (C : Collaborators) :
    (a.set_reddit_top_img C).meta_keywords = a.meta_keywords := by
  simp [Article.set_reddit_top_img]

@[simp] lemma set_reddit_top_img_link_hash (a : Article) (C : Collaborators) :
    (a.set_reddit_top_img C).link_hash = a.link_hash := by
  simp [Article.set_reddit_top_img]

@[simp] lemma set_reddit_top_img_final_url (a : Article) (C : Collaborators) :
    (a.set_reddit_top_img C).final_url = a.final_url := by
  simp [Article.set_reddit_top_img]

@[simp] lemma parse_imgs_text (C : Collaborators) (a : Article) :
    (Article.parse_imgs C a).text = a.text := by
  unfold Article.parse_imgs
  rcases hr : a.raw_doc with _ | d <;> simp [hr]

@[simp] lemma parse_imgs_is_parsed (C : Collaborators) (a : Article) :
    (Article.parse_imgs C a).is_parsed = a.is_parsed := by
  unfold Article.parse_imgs
  rcases hr : a.raw_doc with _ | d <;> simp [hr]

@[simp] lemma parse_imgs_movies (C : Collaborators) (a : Article) :
    (Article.parse_imgs C a).movies = a.movies := by
  unfold Article.parse_imgs
  rcases hr : a.raw_doc with _ | d <;> simp [hr]

@[simp] lemma parse_imgs_top_node (C : Collaborators) (a : Article) :
    (Article.parse_imgs C a).top_node = a.top_node := by
  unfold Article.parse_imgs
  rcases hr : a.raw_doc with _ | d <;> simp [hr]

@[simp] lemma parse_imgs_meta_lang (C : Collaborators) (a : Article) :
    (Article.parse_imgs C a).meta_lang = a.meta_lang := by
  unfold Article.parse_imgs
  rcases hr : a.raw_doc with _ | d <;> simp [hr]

@[simp] lemma parse_imgs_meta_description (C : Collaborators) (a : Article) :
    (Article.parse_imgs C a).meta_description = a.meta_description := by
  unfold Article.parse_imgs
  rcases hr : a.raw_doc with _ | d <;> simp [hr]

@[simp] lemma parse_imgs_meta_favicon (C : Collaborators) (a : Article) :
    (Article.parse_imgs C a).meta_favicon = a.meta_favicon := by
  unfold Article.parse_imgs
  rcases hr : a.raw_doc with _ | d <;> simp [hr]

@[simp] lemma parse_imgs_canonical_link (C : Collaborators) (a : Article) :
    (Article.parse_imgs C a).canonical_link = a.canonical_link := by
  unfold Article.parse_imgs
  rcases hr : a.raw_doc with _ | d <;> simp [hr]

@[simp] lemma parse_imgs_tags (C : Collaborators) (a : Article) :
    (Article.parse_imgs C a).tags = a.tags := by
  unfold Article.parse_imgs
  rcases hr : a.raw_doc with _ | d <;> simp [hr]

@[simp] lemma parse_imgs_meta_keywords (C : Collaborators) (a : Article) :
    (Article.parse_imgs C a).meta_keywords = a.meta_keywords := by
  unfold Article.parse_imgs
  rcases hr : a.raw_doc with _ | d <;> simp [hr]

@[simp] lemma parse_imgs_link_hash (C : Collaborators) (a : Article) :
    (Article.parse_imgs C a).link_hash = a.link_hash := by
  unfold Article.parse_imgs
  rcases hr : a.raw_doc with _ | d <;> simp [hr]

@[simp] lemma parse_imgs_final_url (C : Collaborators) (a : Article) :
    (Article.parse_imgs C a).final_url = a.final_url := by
  unfold Article.parse_imgs
  rcases hr : a.raw_doc with _ | d <;> simp [hr]

/-- Claim C6: on a downloaded article for which best-node selection (run on
the cleaned intermediate state) yields no content node, parse() completes
without raising; the text is left untouched (empty for any pre-parse
article), the video step is skipped (movies unchanged), no top node is
stored, the extracted metadata of the preparation steps is retained, and
is_parsed is set. -/
theorem parse_no_best_node (C : Collaborators) (a : Article)
    (hd : a.is_downloaded = true)
    (hn : C.calculate_best_node (a.parse_prepared C).article = none) :
    (a.parse C).1 = none ∧
    (a.parse C).2.is_parsed = true ∧
    (a.parse C).2.text = a.text ∧
    (a.parse C).2.movies = a.movies ∧
    (a.parse C).2.top_node = none ∧
    (a.parse C).2.meta_lang = (a.parse_prepared C).article.meta_lang ∧
    (a.parse C).2.meta_description =
      (a.parse_prepared C).article.meta_description ∧
    (a.parse C).2.meta_favicon = (a.parse_prepared C).article.meta_favicon ∧
    (a.parse C).2.canonical_link =
      (a.parse_prepared C).article.canonical_link ∧
    (a.parse C).2.tags = (a.parse_prepared C).article.tags ∧
    (a.parse C).2.meta_keywords =
      (a.parse_prepared C).article.meta_keywords ∧
    (a.parse C).2.link_hash = (a.parse_prepared C).article.link_hash ∧
    (a.parse C).2.final_url = (a.parse_prepared C).article.final_url := by
  have hnd : ¬(a.is_downloaded = false) := by simp [hd]
  have htext : (a.parse_prepared C).article.text = a.text := rfl
  have hmov : (a.parse_prepared C).article.movies = a.movies := rfl
  have hmedia := parse_media_none C (a.parse_prepared C) hn
  simp only [Article.parse]
  rw [if_neg hnd, hmedia]
  simp [set_text_of_empty, htext, hmov]

/-- Witness for C6 at a concrete input: the downloaded article under
collab0, whose best-node selection always returns none. -/
theorem parse_no_best_node_witness :
    (artDown.parse collab0).1 = none ∧
    (artDown.parse collab0).2.is_parsed = true ∧
    (artDown.parse collab0).2.text = artDown.text :=
  ⟨(parse_no_best_node collab0 artDown (by decide) (by decide)).1,
   (parse_no_best_node collab0 artDown (by decide) (by decide)).2.1,
   (parse_no_best_node collab0 artDown (by decide) (by decide)).2.2.1⟩
